import Mathlib

/-!
Shallow embedding of the animation fallback layer of the
react-gsap-animation-library repository, covering:

* src/utils/fallbacks.js — CSS keyframe generation/injection, easing
  translation, animation-name selection, the CSS animation applier, and the
  capability probes;
* src/utils/useSafeAnimation.js — the three backend constructors
  (GSAP, Web Animation API, CSS transition fallback) and the backend
  resolution function animate, plus its CSS fallback handle with its
  completion timer and kill operation;
* the useAnimation hook (tween) and the FadeIn component (playAnimation),
  for the disableAllAnimations behaviour.

JavaScript values that can only be observed as present/absent are modelled
with Option; numbers with the rationals; a thrown JavaScript error with the
opaque type JsError and Except. External engine calls (gsap.from, gsap.to,
element.animate) are modelled as environment-supplied outcomes, since their
internals live outside this repository.
-/

/-- An opaque JavaScript runtime error. -/
inductive JsError
  | err : JsError
deriving DecidableEq, Repr

/-- A JavaScript value observable from a bracket lookup on a string-valued
object literal: either a string (an own property value of the literal, or a
string the code supplies as default), or a member inherited from
Object.prototype (a function — or, for the proto accessor, the prototype
object itself). Inherited members are truthy and are not strings. -/
inductive JsValue
  | str (s : String)
  | protoMember (name : String)
deriving DecidableEq

/-- The property names every plain object literal inherits from
Object.prototype, each of which bracket access finds when the literal has no
own property of that name; all of them are truthy values (functions, or the
prototype object for the proto accessor). -/
def objectPrototypeMembers : List String :=
  ["constructor", "hasOwnProperty", "isPrototypeOf", "propertyIsEnumerable",
   "toLocaleString", "toString", "valueOf", "__proto__",
   "__defineGetter__", "__defineSetter__", "__lookupGetter__",
   "__lookupSetter__"]

/-- JS bracket access table[key] on a string-valued object literal: an own
property shadows the prototype; otherwise the lookup walks the prototype
chain and finds the inherited Object.prototype member of that name; only
when neither exists is the result undefined (modelled none). -/
def jsBracketLookup (table : List (String × String)) (key : String) :
    Option JsValue :=
  match table.lookup key with
  | some v => some (JsValue.str v)
  | none =>
    if key ∈ objectPrototypeMembers then some (JsValue.protoMember key)
    else none

/-- JS template-literal stringification of a value spliced into a CSS
shorthand string: a string splices as itself; an inherited Object.prototype
member stringifies to its source text, whose exact form no claim depends on
— modelled as a marker naming the member. -/
def JsValue.templateString : JsValue → String
  | JsValue.str s => s
  | JsValue.protoMember n => "function " ++ n ++ "() [native code]"

namespace Fallbacks

/-- JS comparison v gt c where v may be undefined: a comparison against
undefined is false. -/
def jsGt (v : Option ℚ) (c : ℚ) : Bool :=
  match v with
  | some x => decide (c < x)
  | none => false

/-- JS comparison v lt c where v may be undefined: a comparison against
undefined is false. -/
def jsLt (v : Option ℚ) (c : ℚ) : Bool :=
  match v with
  | some x => decide (x < c)
  | none => false

/-- The names of the @keyframes rules contained in the CSS string returned by
generateCSSKeyframes (fallbacks.js lines 10-186), in their order of
appearance. The rule bodies are uninterpreted CSS text and are not needed by
any claim, so the returned style text is modelled by this list of the rule
names it defines. -/
def generateCSSKeyframesNames : List String :=
  ["fadeIn", "fadeInUp", "fadeInDown", "fadeInLeft", "fadeInRight",
   "slideInUp", "slideInDown", "slideInLeft", "slideInRight",
   "zoomIn", "pulse", "typewriter", "blinkCursor",
   "reveal", "revealUp", "revealDown", "bounce", "ripple", "shine"]

/-- A style element in the document head: its id attribute and its text
content, the latter modelled by the list of @keyframes rule names it
defines. -/
structure StyleElement where
  id : String
  keyframeNames : List String
deriving DecidableEq

/-- The style element created by injectCSSKeyframes: id react-gsap-keyframes,
text content generateCSSKeyframes(). -/
def keyframesStyleElement : StyleElement :=
  ⟨"react-gsap-keyframes", generateCSSKeyframesNames⟩

/-- The document, reduced to the list of style elements reachable from it
(document.getElementById searches these; style elements are appended to
document.head). -/
structure JsDocument where
  head : List StyleElement
deriving DecidableEq

/-- Whether document.getElementById("react-gsap-keyframes") finds an
element. -/
def hasKeyframesStyleElement (d : JsDocument) : Bool :=
  d.head.any (fun e => e.id == "react-gsap-keyframes")

/-- injectCSSKeyframes (fallbacks.js lines 192-200). The argument none models
an environment where typeof document is undefined. When a document exists and
no element with id react-gsap-keyframes is present, a style element with that
id and the generated keyframes text is appended to document.head; otherwise
nothing happens. -/
def injectCSSKeyframes : Option JsDocument → Option JsDocument
  | none => none
  | some d =>
    if hasKeyframesStyleElement d then some d
    else some ⟨d.head ++ [keyframesStyleElement]⟩

/-- The easing lookup table of mapEasing (fallbacks.js lines 208-237), entry
for entry. -/
def easingMap : List (String × String) :=
  [("none", "linear"),
   ("power1.in", "cubic-bezier(0.550, 0.085, 0.680, 0.530)"),
   ("power1.out", "cubic-bezier(0.250, 0.460, 0.450, 0.940)"),
   ("power1.inOut", "cubic-bezier(0.455, 0.030, 0.515, 0.955)"),
   ("power2.in", "cubic-bezier(0.550, 0.055, 0.675, 0.190)"),
   ("power2.out", "cubic-bezier(0.215, 0.610, 0.355, 1.000)"),
   ("power2.inOut", "cubic-bezier(0.645, 0.045, 0.355, 1.000)"),
   ("power3.in", "cubic-bezier(0.895, 0.030, 0.685, 0.220)"),
   ("power3.out", "cubic-bezier(0.165, 0.840, 0.440, 1.000)"),
   ("power3.inOut", "cubic-bezier(0.770, 0.000, 0.175, 1.000)"),
   ("power4.in", "cubic-bezier(0.895, 0.030, 0.685, 0.220)"),
   ("power4.out", "cubic-bezier(0.165, 0.840, 0.440, 1.000)"),
   ("power4.inOut", "cubic-bezier(0.770, 0.000, 0.175, 1.000)"),
   ("back.in", "cubic-bezier(0.600, -0.280, 0.735, 0.045)"),
   ("back.out", "cubic-bezier(0.175, 0.885, 0.320, 1.275)"),
   ("back.inOut", "cubic-bezier(0.680, -0.550, 0.265, 1.550)"),
   ("elastic.in", "cubic-bezier(0.700, 0.000, 0.835, 0.000)"),
   ("elastic.out", "cubic-bezier(0.165, 0.840, 0.440, 1.000)"),
   ("elastic.inOut", "cubic-bezier(0.770, 0.000, 0.175, 1.000)"),
   ("circ.in", "cubic-bezier(0.600, 0.040, 0.980, 0.335)"),
   ("circ.out", "cubic-bezier(0.075, 0.820, 0.165, 1.000)"),
   ("circ.inOut", "cubic-bezier(0.785, 0.135, 0.150, 0.860)"),
   ("expo.in", "cubic-bezier(0.950, 0.050, 0.795, 0.035)"),
   ("expo.out", "cubic-bezier(0.190, 1.000, 0.220, 1.000)"),
   ("expo.inOut", "cubic-bezier(1.000, 0.000, 0.000, 1.000)"),
   ("sine.in", "cubic-bezier(0.470, 0.000, 0.745, 0.715)"),
   ("sine.out", "cubic-bezier(0.390, 0.575, 0.565, 1.000)"),
   ("sine.inOut", "cubic-bezier(0.445, 0.050, 0.550, 0.950)")]

/-- mapEasing (fallbacks.js lines 207-240): easingMap[gsapEase] with the JS
or-default to the string ease-out. easingMap is a plain object literal, so
the bracket access walks the prototype chain: an own key yields its table
value, a name of an inherited Object.prototype member (toString,
constructor, ...) yields that inherited member, and both are truthy, so the
|| default is taken only when the access yields undefined. -/
def mapEasing (gsapEase : String) : JsValue :=
  match jsBracketLookup easingMap gsapEase with
  | some v => v
  | none => JsValue.str "ease-out"

/-- The property bag handed to applyCssAnimation and getAnimationName.
Fields that the source destructures are modelled as optional values (absent
models the undefined JS property); onComplete is modelled by whether a
callback function is present. -/
structure CssProps where
  x? : Option ℚ
  y? : Option ℚ
  opacity? : Option ℚ
  scale? : Option ℚ
  duration? : Option ℚ
  delay? : Option ℚ
  ease? : Option String
  repeatCount? : Option Int
  yoyo? : Option Bool
  hasOnComplete : Bool
deriving DecidableEq

/-- getAnimationName (fallbacks.js lines 247-291): the if-chain over the
destructured x, y, opacity, scale, in source order, with the JS semantics
that any comparison against an undefined value is false and that
opacity === 0 requires the property to be present with value 0. -/
def getAnimationName (props : CssProps) : String :=
  if props.opacity? == some 0 && props.x? == none && props.y? == none
      && props.scale? == none then "fadeIn"
  else if props.opacity? == some 0 && jsGt props.y? 0 then "fadeInUp"
  else if props.opacity? == some 0 && jsLt props.y? 0 then "fadeInDown"
  else if props.opacity? == some 0 && jsGt props.x? 0 then "fadeInLeft"
  else if props.opacity? == some 0 && jsLt props.x? 0 then "fadeInRight"
  else if props.opacity? == some 0 && props.scale?.isSome && jsLt props.scale? 1 then "zoomIn"
  else if jsGt props.y? 50 && props.opacity? == none then "slideInUp"
  else if jsLt props.y? (-50) && props.opacity? == none then "slideInDown"
  else if jsGt props.x? 50 && props.opacity? == none then "slideInLeft"
  else if jsLt props.x? (-50) && props.opacity? == none then "slideInRight"
  else "fadeIn"

/-- The disjunction of the ten pattern guards of getAnimationName, used to
state that every bag matching none of them gets the default name. -/
def matchesAnyPattern (props : CssProps) : Bool :=
  (props.opacity? == some 0 && props.x? == none && props.y? == none
      && props.scale? == none)
  || (props.opacity? == some 0 && jsGt props.y? 0)
  || (props.opacity? == some 0 && jsLt props.y? 0)
  || (props.opacity? == some 0 && jsGt props.x? 0)
  || (props.opacity? == some 0 && jsLt props.x? 0)
  || (props.opacity? == some 0 && props.scale?.isSome && jsLt props.scale? 1)
  || (jsGt props.y? 50 && props.opacity? == none)
  || (jsLt props.y? (-50) && props.opacity? == none)
  || (jsGt props.x? 50 && props.opacity? == none)
  || (jsLt props.x? (-50) && props.opacity? == none)

/-- The property bag with every property absent. -/
def emptyCssProps : CssProps :=
  ⟨none, none, none, none, none, none, none, none, none, false⟩

/-- The state of the animated DOM element that applyCssAnimation touches:
its inline animation style property and the number of animationend listeners
registered on it. -/
structure ElementState where
  animationStyle : String
  listeners : ℕ
deriving DecidableEq

/-- applyCssAnimation (fallbacks.js lines 298-338). Takes the element (none
models a missing/null element), the property bag (none models a missing bag)
and the document; returns the updated element state, the updated document,
and whether a handle object was returned (the source returns undefined from
the early guard, and an object with a kill method otherwise). The source
order is: guard, destructure with defaults, injectCSSKeyframes, compute name
and ease, set element.style.animation, register the animationend listener
when onComplete is a function. -/
def applyCssAnimation (element : Option ElementState) (props : Option CssProps)
    (doc : Option JsDocument) :
    Option ElementState × Option JsDocument × Bool :=
  match element, props with
  | none, _ => (element, doc, false)
  | some _, none => (element, doc, false)
  | some el, some p =>
    let duration := p.duration?.getD (1/2)
    let delay := p.delay?.getD 0
    let ease := p.ease?.getD "power2.out"
    let rep := p.repeatCount?.getD 0
    let yoyo := p.yoyo?.getD false
    let doc2 := injectCSSKeyframes doc
    let animationName := getAnimationName p
    let cssEase := mapEasing ease
    let animStyle := animationName ++ " " ++ toString duration ++ "s "
      ++ cssEase.templateString
      ++ " " ++ toString delay ++ "s "
      ++ (if rep == -1 then "infinite" else toString rep) ++ " "
      ++ (if yoyo then "alternate" else "normal") ++ " forwards"
    let el2 : ElementState :=
      ⟨animStyle, el.listeners + (if p.hasOnComplete then 1 else 0)⟩
    (some el2, doc2, true)

/-- The kill method of the handle returned by applyCssAnimation
(fallbacks.js lines 334-336): element.style.animation is set to the empty
string, which cancels the running CSS animation. -/
def applyCssKill (el : ElementState) : ElementState :=
  { el with animationStyle := "" }

/-- The observable world for the applyCssAnimation handle: the element state
plus the number of times the completion callback has run. -/
structure CssEventWorld where
  el : ElementState
  completeCalls : ℕ
deriving DecidableEq

/-- Events that can happen to an element animated by applyCssAnimation: the
browser firing animationend on the element, kill being called on the handle,
or a later animation being applied to the same element (element.style.animation
set to a new non-empty shorthand, as a later applyCssAnimation call or any
other code would do). -/
inductive CssAnimEvent
  | animationEnd
  | kill
  | reanimate (style : String)
deriving DecidableEq

/-- Whether an event re-animates the element. -/
def isReanimate : CssAnimEvent → Bool
  | CssAnimEvent.reanimate _ => true
  | _ => false

/-- One event step. An animationend event is delivered only while an
animation is applied to the element (clearing element.style.animation
cancels the animation, so no animationend fires while it stays cleared —
the browser fires animationcancel instead, for which no listener is
registered); when it is delivered, every animationend listener currently
registered on the element runs: each registered handler (fallbacks.js lines
324-327) calls its onComplete and then removes itself. The kill of the
handle (lines 334-336) only clears element.style.animation — it does NOT
remove the registered animationend listener. A re-animation sets
element.style.animation to a new shorthand, leaving the listeners as they
are. -/
def cssAnimStep (w : CssEventWorld) : CssAnimEvent → CssEventWorld
  | CssAnimEvent.animationEnd =>
    if w.el.animationStyle ≠ "" then
      ⟨⟨w.el.animationStyle, 0⟩, w.completeCalls + w.el.listeners⟩
    else w
  | CssAnimEvent.kill => ⟨applyCssKill w.el, w.completeCalls⟩
  | CssAnimEvent.reanimate s => ⟨⟨s, w.el.listeners⟩, w.completeCalls⟩

/-- Run of a sequence of events against an applyCssAnimation world. -/
def cssAnimRun : List CssAnimEvent → CssEventWorld → CssEventWorld
  | [], w => w
  | e :: es, w => cssAnimRun es (cssAnimStep w e)

/-- The kill event applied to a world. -/
def killWorld (w : CssEventWorld) : CssEventWorld :=
  cssAnimStep w CssAnimEvent.kill

/-- The environment state read by the capability probes: which globals exist
and what the detection expressions evaluate to. A require call may throw, so
its outcome is an Except value. -/
structure ProbeEnv where
  hasWindow : Bool
  windowGsap : Bool
  hasRequire : Bool
  requireGsap : Except JsError Bool
  hasElementClass : Bool
  elementAnimateIsFunction : Bool
  windowScrollTrigger : Bool
  gsapPluginsScrollTrigger : Bool
  requireScrollTriggerPlugin : Except JsError Bool
  intersectionObserverIsFunction : Bool

/-- canUseFeature (fallbacks.js lines 345-351): runs the detection thunk in a
try/catch and turns any thrown error into false. The thunk is modelled by its
outcome. -/
def canUseFeature (testFn : Except JsError Bool) : Bool :=
  match testFn with
  | Except.ok b => b
  | Except.error _ => false

/-- The detection thunk of canUseGSAP (fallbacks.js lines 358-363):
typeof window guarded, then window.gsap or, short-circuiting, require(gsap),
whose throw propagates out of the thunk. -/
def gsapDetect (env : ProbeEnv) : Except JsError Bool :=
  if ¬ env.hasWindow then Except.ok false
  else if env.windowGsap then Except.ok true
  else if env.hasRequire then env.requireGsap
  else Except.ok false

/-- The detection thunk of canUseWebAnimation (fallbacks.js lines 371-374):
typeof checks only, which cannot throw. -/
def webAnimationDetect (env : ProbeEnv) : Except JsError Bool :=
  Except.ok (env.hasElementClass && env.elementAnimateIsFunction)

/-- The detection thunk of canUseScrollTrigger (fallbacks.js lines 382-389).
The bare window access on its first line throws a ReferenceError when no
window object exists; the gsap value is window.gsap or the required module;
then the plugin is looked for on gsap.plugins, window, or via require. -/
def scrollTriggerDetect (env : ProbeEnv) : Except JsError Bool :=
  if ¬ env.hasWindow then Except.error JsError.err
  else do
    let gsapTruthy ←
      if env.windowGsap then pure true
      else if env.hasRequire then env.requireGsap
      else pure false
    if ¬ gsapTruthy then pure false
    else if env.gsapPluginsScrollTrigger then pure true
    else if env.windowScrollTrigger then pure true
    else if env.hasRequire then env.requireScrollTriggerPlugin
    else pure false

/-- The detection thunk of canUseIntersectionObserver (fallbacks.js lines
397-399): a typeof check, which cannot throw. -/
def intersectionObserverDetect (env : ProbeEnv) : Except JsError Bool :=
  Except.ok env.intersectionObserverIsFunction

/-- canUseGSAP (fallbacks.js lines 357-364). -/
def canUseGSAP (env : ProbeEnv) : Bool :=
  canUseFeature (gsapDetect env)

/-- canUseWebAnimation (fallbacks.js lines 370-375). -/
def canUseWebAnimation (env : ProbeEnv) : Bool :=
  canUseFeature (webAnimationDetect env)

/-- canUseScrollTrigger (fallbacks.js lines 381-390). -/
def canUseScrollTrigger (env : ProbeEnv) : Bool :=
  canUseFeature (scrollTriggerDetect env)

/-- canUseIntersectionObserver (fallbacks.js lines 396-400). -/
def canUseIntersectionObserver (env : ProbeEnv) : Bool :=
  canUseFeature (intersectionObserverDetect env)

end Fallbacks

namespace SafeAnim

/-- JS String.prototype.trim, restricted to ordinary spaces, the only
whitespace the transform strings built here contain. -/
def jsTrim (s : String) : String :=
  String.mk (((s.data.dropWhile (fun c => c = ' ')).reverse.dropWhile
    (fun c => c = ' ')).reverse)

/-- A tween variable bag as handed to gsap.from / gsap.to or converted for
the other backends (the fields destructured by useSafeAnimation.js). Only
presence and numeric value are needed by the claims; onComplete is modelled
by whether a callback is present. -/
structure TweenVars where
  x? : Option ℚ
  y? : Option ℚ
  rotation? : Option ℚ
  scale? : Option ℚ
  scaleX? : Option ℚ
  scaleY? : Option ℚ
  opacity? : Option ℚ
  duration? : Option ℚ
  delay? : Option ℚ
  ease? : Option String
  hasOnComplete : Bool
deriving DecidableEq

/-- One entry of a GSAP timeline description (props.timeline): an animation
step given by from-vars or by to-vars. -/
inductive TimelineStep
  | fromStep (vars : TweenVars)
  | toStep (vars : TweenVars)
deriving DecidableEq

/-- The props object handed to animate: an optional from bag, an optional to
bag, an optional timeline, and the top-level duration/delay/ease that
createCSSAnimation destructures directly from props. -/
structure AnimateProps where
  fromVars? : Option TweenVars
  toVars? : Option TweenVars
  timeline? : Option (List TimelineStep)
  duration? : Option ℚ
  delay? : Option ℚ
  ease? : Option String
deriving DecidableEq

deriving instance DecidableEq for Except

/-- The outcomes of the external GSAP engine calls made by
createGSAPAnimation: each call either returns an animation object
(identified by a number) or throws. The engine is outside this repository,
so the outcomes are environment data. -/
structure GsapEngine where
  fromResult : Except JsError ℕ
  toResult : Except JsError ℕ
  timelineResult : Except JsError ℕ
deriving DecidableEq

/-- The target DOM element as seen by the backend constructors: the outcome
of element.animate (Web Animation API, may throw), and whether the inline
style mutations performed by createCSSAnimation throw (everything in that
function is wrapped in try/catch). -/
structure Element where
  animateResult : Except JsError ℕ
  styleOpsFail : Bool
deriving DecidableEq

/-- The hook state read by the backend constructors: the availability flags
set on mount, the ref, and the GSAP instance getGSAP() yields when
available. -/
structure SafeAnimEnv where
  isGsapAvailable : Bool
  isWebAnimationAvailable : Bool
  refCurrent : Option Element
  gsapInstance : Option GsapEngine
deriving DecidableEq

/-- The fake animation control object returned by createCSSAnimation
(useSafeAnimation.js lines 369-408): the completion setTimeout is scheduled
at (duration + delay) * 1000 milliseconds, and on firing it invokes
props.from.onComplete and props.to.onComplete when present. -/
structure CSSHandle where
  timeoutMs : ℚ
  hasFromOnComplete : Bool
  hasToOnComplete : Bool
deriving DecidableEq

/-- A uniform animation object as returned by animate, tagged by the backend
that produced it. -/
inductive AnimHandle
  | gsapAnim (id : ℕ)
  | webAnim (id : ℕ)
  | cssFallback (h : CSSHandle)
deriving DecidableEq

/-- The three animation backends, in the priority order of the source. -/
inductive Backend
  | gsap
  | webAnimation
  | cssFallback
deriving DecidableEq

/-- createGSAPAnimation (useSafeAnimation.js lines 86-124): returns null
when GSAP is unavailable or the ref is empty or getGSAP yields nothing;
otherwise dispatches on props.from, then props.to, then props.timeline, with
any engine throw caught and turned into null; with none of the three bags
present it returns null. -/
def createGSAPAnimation (env : SafeAnimEnv) (props : AnimateProps) :
    Option AnimHandle :=
  if ¬ env.isGsapAvailable ∨ env.refCurrent = none then none
  else
    match env.gsapInstance with
    | none => none
    | some g =>
      match props.fromVars? with
      | some _ => g.fromResult.toOption.map AnimHandle.gsapAnim
      | none =>
        match props.toVars? with
        | some _ => g.toResult.toOption.map AnimHandle.gsapAnim
        | none =>
          match props.timeline? with
          | some _ => g.timelineResult.toOption.map AnimHandle.gsapAnim
          | none => none

/-- createWebAnimation (useSafeAnimation.js lines 127-237): returns null
when the Web Animation API is unavailable or the ref is empty; otherwise
builds keyframes (pure) and calls element.animate for a from bag or a to
bag, with any throw caught and turned into null; with neither bag present it
returns null. -/
def createWebAnimation (env : SafeAnimEnv) (props : AnimateProps) :
    Option AnimHandle :=
  if ¬ env.isWebAnimationAvailable ∨ env.refCurrent = none then none
  else
    match env.refCurrent with
    | none => none
    | some el =>
      if props.fromVars?.isSome ∨ props.toVars?.isSome then
        el.animateResult.toOption.map AnimHandle.webAnim
      else none

/-- createCSSAnimation (useSafeAnimation.js lines 240-413): returns null when
the ref is empty; the whole body is wrapped in try/catch, so a throwing
style mutation also yields null; otherwise it applies the from state, sets
the inline transition, schedules the reset, and returns the fake control
object whose completion timer is set at (duration + delay) * 1000
milliseconds with the top-level duration defaulting to 1 and delay to 0. -/
def createCSSAnimation (env : SafeAnimEnv) (props : AnimateProps) :
    Option AnimHandle :=
  match env.refCurrent with
  | none => none
  | some el =>
    if el.styleOpsFail then none
    else
      some (AnimHandle.cssFallback
        ⟨(props.duration?.getD 1 + props.delay?.getD 0) * 1000,
         (props.fromVars?.map (fun v => v.hasOnComplete)).getD false,
         (props.toVars?.map (fun v => v.hasOnComplete)).getD false⟩)

/-- animate (useSafeAnimation.js lines 416-447), instrumented with the list
of backend constructors it invokes, in invocation order: GSAP is tried first
when available, then the Web Animation API when available, then the CSS
fallback; the first non-null result is returned, and the CSS result (which
may itself be null) is returned last. -/
def animate (env : SafeAnimEnv) (props : AnimateProps) :
    Option AnimHandle × List Backend :=
  if env.isGsapAvailable then
    match createGSAPAnimation env props with
    | some a => (some a, [Backend.gsap])
    | none =>
      if env.isWebAnimationAvailable then
        match createWebAnimation env props with
        | some a => (some a, [Backend.gsap, Backend.webAnimation])
        | none =>
          (createCSSAnimation env props,
           [Backend.gsap, Backend.webAnimation, Backend.cssFallback])
      else
        (createCSSAnimation env props, [Backend.gsap, Backend.cssFallback])
  else
    if env.isWebAnimationAvailable then
      match createWebAnimation env props with
      | some a => (some a, [Backend.webAnimation])
      | none =>
        (createCSSAnimation env props,
         [Backend.webAnimation, Backend.cssFallback])
    else
      (createCSSAnimation env props, [Backend.cssFallback])

/-- The easing lookup table of the convertEase closure inside
createWebAnimation (useSafeAnimation.js lines 171-191), entry for entry. -/
def webAnimEasingMap : List (String × String) :=
  [("none", "linear"),
   ("power1.in", "ease-in"),
   ("power1.out", "ease-out"),
   ("power1.inOut", "ease-in-out"),
   ("power2.in", "cubic-bezier(0.55, 0.055, 0.675, 0.19)"),
   ("power2.out", "cubic-bezier(0.215, 0.61, 0.355, 1)"),
   ("power2.inOut", "cubic-bezier(0.645, 0.045, 0.355, 1)"),
   ("power3.in", "cubic-bezier(0.755, 0.05, 0.855, 0.06)"),
   ("power3.out", "cubic-bezier(0.23, 1, 0.32, 1)"),
   ("power3.inOut", "cubic-bezier(0.645, 0.045, 0.355, 1)"),
   ("power4.in", "cubic-bezier(0.895, 0.03, 0.685, 0.22)"),
   ("power4.out", "cubic-bezier(0.165, 0.84, 0.44, 1)"),
   ("power4.inOut", "cubic-bezier(0.77, 0, 0.175, 1)"),
   ("expo.in", "cubic-bezier(0.95, 0.05, 0.795, 0.035)"),
   ("expo.out", "cubic-bezier(0.19, 1, 0.22, 1)"),
   ("expo.inOut", "cubic-bezier(1, 0, 0, 1)"),
   ("elastic.in", "cubic-bezier(0.7, 0, 0.84, 0)"),
   ("elastic.out", "cubic-bezier(0.16, 1, 0.3, 1)"),
   ("elastic.inOut", "cubic-bezier(0.87, 0, 0.13, 1)")]

/-- The convertEase closure inside createWebAnimation (useSafeAnimation.js
lines 170-194): easingMap[gsapEase] with the JS or-default to ease-out. The
table is a plain object literal, so the bracket access walks the prototype
chain, exactly as for mapEasing: an own key yields its value, an inherited
Object.prototype member name yields that truthy inherited member, and the
default is taken only for undefined. -/
def convertEase (gsapEase : String) : JsValue :=
  match jsBracketLookup webAnimEasingMap gsapEase with
  | some v => v
  | none => JsValue.str "ease-out"

/-- The transform-string build of the convertGSAPToWebAnimation closure
inside createWebAnimation (useSafeAnimation.js lines 144-153). The GSAP
property bag is modelled as the ordered list of its numeric entries; the
destructuring reads each named property, i.e. looks it up in the bag. The
pieces are appended in the fixed source order x, y, rotation, scale, scaleX,
scaleY, each with a trailing space, and the result is trimmed. -/
def webAnimationTransform (gsapProps : List (String × ℚ)) : String :=
  let x := gsapProps.lookup "x"
  let y := gsapProps.lookup "y"
  let rotation := gsapProps.lookup "rotation"
  let scale := gsapProps.lookup "scale"
  let scaleX := gsapProps.lookup "scaleX"
  let scaleY := gsapProps.lookup "scaleY"
  let t := ""
  let t := match x with
    | some v => t ++ "translateX(" ++ toString v ++ "px) "
    | none => t
  let t := match y with
    | some v => t ++ "translateY(" ++ toString v ++ "px) "
    | none => t
  let t := match rotation with
    | some v => t ++ "rotate(" ++ toString v ++ "deg) "
    | none => t
  let t := match scale with
    | some v => t ++ "scale(" ++ toString v ++ ") "
    | none => t
  let t := match scaleX with
    | some v => t ++ "scaleX(" ++ toString v ++ ") "
    | none => t
  let t := match scaleY with
    | some v => t ++ "scaleY(" ++ toString v ++ ") "
    | none => t
  jsTrim t

/-- Modelled from the spec for comparison: the translate pieces of a bag
(x then y), as the spec words order them first. -/
def specTranslatePart (gsapProps : List (String × ℚ)) : String :=
  (match gsapProps.lookup "x" with
    | some v => "translateX(" ++ toString v ++ "px) "
    | none => "") ++
  (match gsapProps.lookup "y" with
    | some v => "translateY(" ++ toString v ++ "px) "
    | none => "")

/-- Modelled from the spec for comparison: the rotate piece of a bag, which
the spec words place second. -/
def specRotatePart (gsapProps : List (String × ℚ)) : String :=
  match gsapProps.lookup "rotation" with
  | some v => "rotate(" ++ toString v ++ "deg) "
  | none => ""

/-- Modelled from the spec for comparison: the scale pieces of a bag (scale,
scaleX, scaleY), which the spec words place last. -/
def specScalePart (gsapProps : List (String × ℚ)) : String :=
  (match gsapProps.lookup "scale" with
    | some v => "scale(" ++ toString v ++ ") "
    | none => "") ++
  (match gsapProps.lookup "scaleX" with
    | some v => "scaleX(" ++ toString v ++ ") "
    | none => "") ++
  (match gsapProps.lookup "scaleY" with
    | some v => "scaleY(" ++ toString v ++ ") "
    | none => "")

/-- Modelled from the spec for comparison: a transform composed in the fixed
order translate parts, then the rotate part, then the scale parts, then
trimmed. -/
def specOrderedTransform (gsapProps : List (String × ℚ)) : String :=
  jsTrim (specTranslatePart gsapProps ++ specRotatePart gsapProps
    ++ specScalePart gsapProps)

/-- The from-state transform build inside createCSSAnimation
(useSafeAnimation.js lines 272-292): Object.entries(from) is iterated in the
order of the property bag; for each transform-relevant key the matching
piece is appended with a leading space to the current value of
element.style.transform and the result is trimmed and written back; other
keys leave the transform untouched. -/
def cssFromTransform (fromEntries : List (String × ℚ))
    (initialTransform : String) : String :=
  fromEntries.foldl (fun transform kv =>
    if kv.1 = "x" then
      jsTrim (transform ++ " translateX(" ++ toString kv.2 ++ "px)")
    else if kv.1 = "y" then
      jsTrim (transform ++ " translateY(" ++ toString kv.2 ++ "px)")
    else if kv.1 = "rotation" then
      jsTrim (transform ++ " rotate(" ++ toString kv.2 ++ "deg)")
    else if kv.1 = "scale" then
      jsTrim (transform ++ " scale(" ++ toString kv.2 ++ ")")
    else if kv.1 = "scaleX" then
      jsTrim (transform ++ " scaleX(" ++ toString kv.2 ++ ")")
    else if kv.1 = "scaleY" then
      jsTrim (transform ++ " scaleY(" ++ toString kv.2 ++ ")")
    else transform) initialTransform

/-- The observable world of the createCSSAnimation handle: the remaining
milliseconds of the pending completion setTimeout (none when cleared or
already fired), the number of completion-callback invocations so far, and
the inline transition style the kill method clears. -/
structure CSSTimerWorld where
  pendingMs : Option ℚ
  completeCalls : ℕ
  transitionStyle : String
deriving DecidableEq

/-- Events that can happen to a createCSSAnimation handle after it is
returned: one millisecond of time passing, or kill being called. -/
inductive CSSTimerEvent
  | elapseMs
  | kill
deriving DecidableEq

/-- The world right after createCSSAnimation returns handle h: the
completion timer is pending at its full timeout, no callback has run, and
the inline transition set by the source is in place (its exact text does not
matter to any claim, recorded as given). -/
def cssInitWorld (h : CSSHandle) (transition : String) : CSSTimerWorld :=
  ⟨some h.timeoutMs, 0, transition⟩

/-- How many completion callbacks one firing of the timeout of handle h
invokes: props.from.onComplete and props.to.onComplete, each when present
(useSafeAnimation.js lines 372-379). -/
def cssCallbackCount (h : CSSHandle) : ℕ :=
  (if h.hasFromOnComplete then 1 else 0) + (if h.hasToOnComplete then 1 else 0)

/-- One millisecond elapsing. The setTimeout scheduled by createCSSAnimation
fires once, when its remaining time runs out; firing invokes
props.from.onComplete and props.to.onComplete when present (lines 372-379)
and the timer is gone afterwards. -/
def cssTimerStep (h : CSSHandle) (w : CSSTimerWorld) : CSSTimerWorld :=
  match w.pendingMs with
  | none => w
  | some t =>
    if t ≤ 1 then
      ⟨none, w.completeCalls + cssCallbackCount h, w.transitionStyle⟩
    else ⟨some (t - 1), w.completeCalls, w.transitionStyle⟩

/-- The kill method of the createCSSAnimation handle (lines 382-385):
clearTimeout on the pending completion timer and reset of the inline
transition style. clearTimeout of an already-fired or already-cleared timer
is a no-op and never throws. -/
def cssTimerKill (w : CSSTimerWorld) : CSSTimerWorld :=
  ⟨none, w.completeCalls, ""⟩

/-- Run of a sequence of events against a createCSSAnimation handle
world. -/
def cssTimerRun (h : CSSHandle) : List CSSTimerEvent → CSSTimerWorld → CSSTimerWorld
  | [], w => w
  | e :: es, w =>
    cssTimerRun h es
      (match e with
       | CSSTimerEvent.elapseMs => cssTimerStep h w
       | CSSTimerEvent.kill => cssTimerKill w)

end SafeAnim

namespace UseAnimationHook

/-- The observable world of a tween target: the inline opacity of the target
element and the number of times the intents completion callback has run. -/
structure TweenWorld where
  targetOpacity : ℚ
  completeCalls : ℕ
deriving DecidableEq

/-- The vars bag handed to tween, reduced to what the claim observes: the
final opacity value the tween should reach, and whether an onComplete
callback is attached. -/
structure TweenTargetVars where
  opacity? : Option ℚ
  hasOnComplete : Bool
deriving DecidableEq

/-- The value returned by tween: the stub object with only a no-op kill
returned when animations are disabled, or the tween built by gsap.to. -/
inductive TweenHandle
  | stub
  | gsapTween (vars : TweenTargetVars)
deriving DecidableEq

/-- tween of the useAnimation hook (the hooks file bundled with
fallbacks.js, useAnimation lines 455-458): with disableAllAnimations set it
immediately returns an object whose kill does nothing, touching neither the
target nor the callback; otherwise it hands the vars to gsap.to, which
starts the animation asynchronously, so the world is unchanged
synchronously either way. -/
def tween (disableAllAnimations : Bool) (w : TweenWorld)
    (vars : TweenTargetVars) : TweenWorld × TweenHandle :=
  if disableAllAnimations then (w, TweenHandle.stub)
  else (w, TweenHandle.gsapTween vars)

end UseAnimationHook

namespace FadeIn

/-- The FadeIn component state (components/basic/FadeIn.jsx lines 44-47). -/
structure ComponentState where
  hasAnimated : Bool
  isAnimating : Bool
deriving DecidableEq

/-- The observable effects of playAnimation: how many times the onStart
callback ran and how many times animate was invoked. -/
structure PlayWorld where
  onStartCalls : ℕ
  animateCalls : ℕ
deriving DecidableEq

/-- playAnimation (components/basic/FadeIn.jsx lines 113-125): returns
immediately — touching nothing — when disableAllAnimations is set or the
component has already animated or is animating; otherwise it marks the
state animating, calls onStart, and invokes animate with the merged
props. -/
def playAnimation (disableAllAnimations : Bool) (s : ComponentState)
    (w : PlayWorld) : ComponentState × PlayWorld :=
  if disableAllAnimations || s.hasAnimated || s.isAnimating then (s, w)
  else (⟨s.hasAnimated, true⟩, ⟨w.onStartCalls + 1, w.animateCalls + 1⟩)

end FadeIn

/-- A target element whose element.animate call succeeds and whose style
mutations do not throw. -/
def elementOk : SafeAnim.Element := ⟨Except.ok 7, false⟩

/-- A target element on which element.animate throws and the inline style
mutations of the CSS fallback throw as well. -/
def elementAllFail : SafeAnim.Element := ⟨Except.error JsError.err, true⟩

/-- A GSAP engine whose from, to and timeline calls all throw. -/
def gsapEngineFails : SafeAnim.GsapEngine :=
  ⟨Except.error JsError.err, Except.error JsError.err, Except.error JsError.err⟩

/-- An environment with GSAP marked unavailable and the Web Animation API
marked available. -/
def envNoGsap : SafeAnim.SafeAnimEnv := ⟨false, true, some elementOk, none⟩

/-- An environment in which every backend constructor fails: GSAP and the
Web Animation API are available but every engine call throws, and the CSS
fallback style mutations throw too. -/
def envAllFail : SafeAnim.SafeAnimEnv :=
  ⟨true, true, some elementAllFail, some gsapEngineFails⟩

/-- An environment with only the CSS fallback usable. -/
def envCssOnly : SafeAnim.SafeAnimEnv := ⟨false, false, some elementOk, none⟩

/-- A sample from bag: fade in from opacity 0, thirty pixels down, half a
second, with an onComplete callback. -/
def fromVarsSample : SafeAnim.TweenVars :=
  ⟨none, some 30, none, none, none, none, some 0, some (1/2), some 0,
   some "power3.out", true⟩

/-- A sample animate props object carrying only the from bag, as FadeIn
builds it. -/
def propsFromSample : SafeAnim.AnimateProps :=
  ⟨some fromVarsSample, none, none, none, none, none⟩

/-- The CSS fallback handle createCSSAnimation builds for propsFromSample:
top-level duration defaults to 1 and delay to 0, so the completion timer is
1000 milliseconds; the from bag has an onComplete, the to bag is absent. -/
def cssHandleSample : SafeAnim.CSSHandle := ⟨1000, true, false⟩

/-- A probe environment in which the require call of the GSAP detection
thunk throws: a window exists without window.gsap, require exists, and
require of the gsap module throws. -/
def probeEnvRequireThrows : Fallbacks.ProbeEnv :=
  ⟨true, false, true, Except.error JsError.err, true, true, false, false,
   Except.error JsError.err, true⟩

/-- A tween target sitting at opacity 0 whose completion callback has never
run. -/
def disabledWorld : UseAnimationHook.TweenWorld := ⟨0, 0⟩

/-- A fade-in intent: final opacity 1, with a completion callback. -/
def fadeFinalVars : UseAnimationHook.TweenTargetVars := ⟨some 1, true⟩

/-- A document with no style elements. -/
def emptyDocument : Fallbacks.JsDocument := ⟨[]⟩

/-- A property bag listing scale before x. -/
def bagScaleFirst : List (String × ℚ) := [("scale", 2), ("x", 10)]

/-- The same property bag with its entries in the other order. -/
def bagXFirst : List (String × ℚ) := [("x", 10), ("scale", 2)]

/-- A property bag for applyCssAnimation: fade from opacity 0, one second,
the linear easing, no delay, no repeat, with an onComplete callback; every
destructured field is present so no default is consulted. -/
def fadeInOnCompleteProps : Fallbacks.CssProps :=
  ⟨none, none, some 0, none, some 1, some 0, some "none", some 0, some false,
   true⟩

/-- An element with no animation applied and no listeners registered. -/
def elementFresh : Fallbacks.ElementState := ⟨"", 0⟩

/-- The element state right after applyCssAnimation has animated
elementFresh with fadeInOnCompleteProps: the fadeIn shorthand is applied and
one animationend listener is registered. -/
def elementAfterApply : Fallbacks.ElementState :=
  ((Fallbacks.applyCssAnimation (some elementFresh)
    (some fadeInOnCompleteProps) (some emptyDocument)).1).getD ⟨"", 0⟩

/-- Claim C10: applying a CSS animation with a missing element or a missing
property bag is a safe no-op — applyCssAnimation returns without mutating
any element style, registering any listener, or touching the document, and
returns no handle. -/
theorem c10_apply_guard_noop :
    (∀ (props : Option Fallbacks.CssProps) (doc : Option Fallbacks.JsDocument),
        Fallbacks.applyCssAnimation none props doc = (none, doc, false)) ∧
    (∀ (el : Fallbacks.ElementState) (doc : Option Fallbacks.JsDocument),
        Fallbacks.applyCssAnimation (some el) none doc = (some el, doc, false)) := by
  constructor
  · intro props doc
    rfl
  · intro el doc
    rfl

/-- Claim C2, counterexample: with disableAllAnimations set, the useAnimation
tween on a target at opacity 0 for an intent with final opacity 1 leaves the
target opacity at 0 — not at the final value 1 — never runs the completion
callback, and returns the kill-only stub rather than a completed-and-applied
handle, refuting the claim at this input. -/
theorem c2_disabled_counterexample :
    (UseAnimationHook.tween true disabledWorld fadeFinalVars).1.targetOpacity = 0 ∧
    fadeFinalVars.opacity? = some 1 ∧
    ¬ ((UseAnimationHook.tween true disabledWorld fadeFinalVars).1.targetOpacity = 1 ∧
        1 ≤ (UseAnimationHook.tween true disabledWorld fadeFinalVars).1.completeCalls) ∧
    (UseAnimationHook.tween true disabledWorld fadeFinalVars).2
      = UseAnimationHook.TweenHandle.stub := by
  decide

/-- Claim C2, amended: with disableAllAnimations set at resolve time the code
skips the animation entirely — the useAnimation tween returns a stub handle
whose kill is a no-op, with the target style untouched and the completion
callback not invoked, and FadeIn playAnimation returns with the component
state, the onStart count and the animate count all unchanged. -/
theorem c2_disabled_skips :
    (∀ (w : UseAnimationHook.TweenWorld) (vars : UseAnimationHook.TweenTargetVars),
        UseAnimationHook.tween true w vars = (w, UseAnimationHook.TweenHandle.stub)) ∧
    (∀ (s : FadeIn.ComponentState) (w : FadeIn.PlayWorld),
        FadeIn.playAnimation true s w = (s, w)) := by
  constructor
  · intro w vars
    rfl
  · intro s w
    rfl

/-- Claim C5: every capability probe is total, and a detection thunk that
throws makes the probe report false — canUseFeature maps any thrown error to
false, and so do the four probes built on it. -/
theorem c5_probes_never_throw :
    (∀ (r : Except JsError Bool) (e : JsError), r = Except.error e →
        Fallbacks.canUseFeature r = false) ∧
    (∀ (env : Fallbacks.ProbeEnv) (e : JsError),
        Fallbacks.gsapDetect env = Except.error e →
        Fallbacks.canUseGSAP env = false) ∧
    (∀ (env : Fallbacks.ProbeEnv) (e : JsError),
        Fallbacks.webAnimationDetect env = Except.error e →
        Fallbacks.canUseWebAnimation env = false) ∧
    (∀ (env : Fallbacks.ProbeEnv) (e : JsError),
        Fallbacks.scrollTriggerDetect env = Except.error e →
        Fallbacks.canUseScrollTrigger env = false) ∧
    (∀ (env : Fallbacks.ProbeEnv) (e : JsError),
        Fallbacks.intersectionObserverDetect env = Except.error e →
        Fallbacks.canUseIntersectionObserver env = false) := by
  refine ⟨?_, ?_, ?_, ?_, ?_⟩
  · intro r e h
    rw [h]
    rfl
  · intro env e h
    rw [Fallbacks.canUseGSAP, h]
    rfl
  · intro env e h
    rw [Fallbacks.canUseWebAnimation, h]
    rfl
  · intro env e h
    rw [Fallbacks.canUseScrollTrigger, h]
    rfl
  · intro env e h
    rw [Fallbacks.canUseIntersectionObserver, h]
    rfl

/-- Claim C5, witness: in an environment where the GSAP detection thunk
throws inside require, canUseGSAP reports false instead of propagating. -/
theorem c5_probes_never_throw_witness :
    Fallbacks.canUseGSAP probeEnvRequireThrows = false :=
  c5_probes_never_throw.2.1 probeEnvRequireThrows JsError.err (by decide)

/-- Claim C6, counterexample: toString is not a key of the easing table, yet
mapEasing does not return the ease-out default for it — the JS bracket
access finds the truthy inherited Object.prototype member, which
short-circuits the || default, and a non-string comes back; likewise
convertEase on constructor. This refutes the claim that every non-key input
yields the documented default. -/
theorem c6_proto_member_counterexample :
    Fallbacks.easingMap.lookup "toString" = none ∧
    Fallbacks.mapEasing "toString" = JsValue.protoMember "toString" ∧
    Fallbacks.mapEasing "toString" ≠ JsValue.str "ease-out" ∧
    SafeAnim.webAnimEasingMap.lookup "constructor" = none ∧
    SafeAnim.convertEase "constructor" = JsValue.protoMember "constructor" ∧
    SafeAnim.convertEase "constructor" ≠ JsValue.str "ease-out" := by
  decide

/-- Claim C6, amended: for every easing name that is neither a key of the
lookup table nor the name of an inherited Object.prototype member, the
easing translation returns the documented ease-out default and never throws,
and for every key of the table it returns that key table value; but for the
names of inherited Object.prototype members (toString, constructor,
__proto__, ...) the truthy inherited member short-circuits the || default
and a non-string is returned (see the counterexample). This holds for
mapEasing of the CSS fallback and for convertEase of the Web Animation
path. -/
theorem c6_easing_default :
    (∀ s : String, Fallbacks.easingMap.lookup s = none →
        s ∉ objectPrototypeMembers →
        Fallbacks.mapEasing s = JsValue.str "ease-out") ∧
    (∀ s v : String, Fallbacks.easingMap.lookup s = some v →
        Fallbacks.mapEasing s = JsValue.str v) ∧
    (∀ s : String, SafeAnim.webAnimEasingMap.lookup s = none →
        s ∉ objectPrototypeMembers →
        SafeAnim.convertEase s = JsValue.str "ease-out") ∧
    (∀ s v : String, SafeAnim.webAnimEasingMap.lookup s = some v →
        SafeAnim.convertEase s = JsValue.str v) := by
  refine ⟨?_, ?_, ?_, ?_⟩
  · intro s h1 h2
    simp [Fallbacks.mapEasing, jsBracketLookup, h1, h2]
  · intro s v h
    simp [Fallbacks.mapEasing, jsBracketLookup, h]
  · intro s h1 h2
    simp [SafeAnim.convertEase, jsBracketLookup, h1, h2]
  · intro s v h
    simp [SafeAnim.convertEase, jsBracketLookup, h]

/-- Claim C6, witness: an unknown, non-inherited easing name yields the
ease-out default, and a known key yields its table entry. -/
theorem c6_easing_default_witness :
    Fallbacks.mapEasing "bogus.ease" = JsValue.str "ease-out" ∧
    Fallbacks.mapEasing "power2.out"
      = JsValue.str "cubic-bezier(0.215, 0.610, 0.355, 1.000)" :=
  ⟨c6_easing_default.1 "bogus.ease" (by decide) (by decide),
   c6_easing_default.2.1 "power2.out" _ (by decide)⟩

/-- Claim C8: the keyframes style block is injected at most once — with the
style element absent a call appends exactly the one style element, with it
present a call leaves the document unchanged, and the function is
idempotent. -/
theorem c8_inject_once :
    (∀ d : Fallbacks.JsDocument, Fallbacks.hasKeyframesStyleElement d = false →
        Fallbacks.injectCSSKeyframes (some d)
          = some ⟨d.head ++ [Fallbacks.keyframesStyleElement]⟩) ∧
    (∀ d : Fallbacks.JsDocument, Fallbacks.hasKeyframesStyleElement d = true →
        Fallbacks.injectCSSKeyframes (some d) = some d) ∧
    (∀ o : Option Fallbacks.JsDocument,
        Fallbacks.injectCSSKeyframes (Fallbacks.injectCSSKeyframes o)
          = Fallbacks.injectCSSKeyframes o) := by
  refine ⟨?_, ?_, ?_⟩
  · intro d h
    simp [Fallbacks.injectCSSKeyframes, h]
  · intro d h
    simp [Fallbacks.injectCSSKeyframes, h]
  · intro o
    match o with
    | none => rfl
    | some d =>
      by_cases h : Fallbacks.hasKeyframesStyleElement d
      · simp [Fallbacks.injectCSSKeyframes, h]
      · simp only [Fallbacks.injectCSSKeyframes, Bool.not_eq_true] at h ⊢
        rw [if_neg (by simp [h])]
        have h2 : Fallbacks.hasKeyframesStyleElement
            ⟨d.head ++ [Fallbacks.keyframesStyleElement]⟩ = true := by
          simp [Fallbacks.hasKeyframesStyleElement, Fallbacks.keyframesStyleElement]
        simp [h2]

/-- Claim C8, witness: injecting into a document with no style elements
appends the keyframes style element. -/
theorem c8_inject_once_witness :
    Fallbacks.injectCSSKeyframes (some emptyDocument)
      = some ⟨[Fallbacks.keyframesStyleElement]⟩ :=
  c8_inject_once.1 emptyDocument (by decide)

/-- Any animation object createWebAnimation returns is tagged as a Web
Animation object. -/
theorem createWebAnimation_shape (env : SafeAnim.SafeAnimEnv)
    (props : SafeAnim.AnimateProps) (a : SafeAnim.AnimHandle)
    (h : SafeAnim.createWebAnimation env props = some a) :
    ∃ n : ℕ, a = SafeAnim.AnimHandle.webAnim n := by
  unfold SafeAnim.createWebAnimation at h
  split at h
  · simp at h
  · split at h
    · simp at h
    · rename_i el hel
      split at h
      · rcases hr : el.animateResult with e | n <;> rw [hr] at h <;>
          simp [Except.toOption] at h
        exact ⟨n, h.symm⟩
      · simp at h

/-- Any animation object createCSSAnimation returns is tagged as a CSS
fallback handle. -/
theorem createCSSAnimation_shape (env : SafeAnim.SafeAnimEnv)
    (props : SafeAnim.AnimateProps) (a : SafeAnim.AnimHandle)
    (h : SafeAnim.createCSSAnimation env props = some a) :
    ∃ hdl : SafeAnim.CSSHandle, a = SafeAnim.AnimHandle.cssFallback hdl := by
  unfold SafeAnim.createCSSAnimation at h
  split at h
  · simp at h
  · split at h
    · simp at h
    · simp only [Option.some.injEq] at h
      exact ⟨_, h.symm⟩

/-- Claim C1: animate tries the backends in the strict fixed priority order
GSAP, then Web Animation API, then CSS fallback — the list of constructors
it invokes is always an in-order sublist of that priority list — and
whenever GSAP is marked unavailable and the Web Animation API is marked
available, the GSAP constructor is never invoked, the Web Animation
constructor is invoked first, and the returned animation is never
GSAP-backed. -/
theorem c1_backend_priority :
    (∀ (env : SafeAnim.SafeAnimEnv) (props : SafeAnim.AnimateProps),
        List.Sublist (SafeAnim.animate env props).2
          [SafeAnim.Backend.gsap, SafeAnim.Backend.webAnimation,
           SafeAnim.Backend.cssFallback]) ∧
    (∀ (env : SafeAnim.SafeAnimEnv) (props : SafeAnim.AnimateProps),
        env.isGsapAvailable = false → env.isWebAnimationAvailable = true →
        SafeAnim.Backend.gsap ∉ (SafeAnim.animate env props).2 ∧
        (SafeAnim.animate env props).2.head? = some SafeAnim.Backend.webAnimation ∧
        ∀ g : ℕ, (SafeAnim.animate env props).1 ≠ some (SafeAnim.AnimHandle.gsapAnim g)) := by
  constructor
  · intro env props
    cases hg : env.isGsapAvailable <;> cases hw : env.isWebAnimationAvailable
    · have h2 : (SafeAnim.animate env props).2 = [SafeAnim.Backend.cssFallback] := by
        simp [SafeAnim.animate, hg, hw]
      rw [h2] <;> decide
    · rcases hcw : SafeAnim.createWebAnimation env props with _ | a
      · have h2 : (SafeAnim.animate env props).2
            = [SafeAnim.Backend.webAnimation, SafeAnim.Backend.cssFallback] := by
          simp [SafeAnim.animate, hg, hw, hcw]
        rw [h2] <;> decide
      · have h2 : (SafeAnim.animate env props).2 = [SafeAnim.Backend.webAnimation] := by
          simp [SafeAnim.animate, hg, hw, hcw]
        rw [h2] <;> decide
    · rcases hcg : SafeAnim.createGSAPAnimation env props with _ | a
      · have h2 : (SafeAnim.animate env props).2
            = [SafeAnim.Backend.gsap, SafeAnim.Backend.cssFallback] := by
          simp [SafeAnim.animate, hg, hw, hcg]
        rw [h2] <;> decide
      · have h2 : (SafeAnim.animate env props).2 = [SafeAnim.Backend.gsap] := by
          simp [SafeAnim.animate, hg, hw, hcg]
        rw [h2] <;> decide
    · rcases hcg : SafeAnim.createGSAPAnimation env props with _ | a
      · rcases hcw : SafeAnim.createWebAnimation env props with _ | b
        · have h2 : (SafeAnim.animate env props).2
              = [SafeAnim.Backend.gsap, SafeAnim.Backend.webAnimation,
                 SafeAnim.Backend.cssFallback] := by
            simp [SafeAnim.animate, hg, hw, hcg, hcw]
          rw [h2] <;> decide
        · have h2 : (SafeAnim.animate env props).2
              = [SafeAnim.Backend.gsap, SafeAnim.Backend.webAnimation] := by
            simp [SafeAnim.animate, hg, hw, hcg, hcw]
          rw [h2] <;> decide
      · have h2 : (SafeAnim.animate env props).2 = [SafeAnim.Backend.gsap] := by
          simp [SafeAnim.animate, hg, hw, hcg]
        rw [h2] <;> decide
  · intro env props hg hw
    rcases hcw : SafeAnim.createWebAnimation env props with _ | a
    · have hanim : (SafeAnim.animate env props).1 = SafeAnim.createCSSAnimation env props := by
        simp [SafeAnim.animate, hg, hw, hcw]
      have h2 : (SafeAnim.animate env props).2
          = [SafeAnim.Backend.webAnimation, SafeAnim.Backend.cssFallback] := by
        simp [SafeAnim.animate, hg, hw, hcw]
      refine ⟨?_, ?_, ?_⟩
      · rw [h2] <;> decide
      · simp [h2]
      · intro g hcss
        rw [hanim] at hcss
        obtain ⟨hdl, heq⟩ := createCSSAnimation_shape env props _ hcss
        cases heq
    · have hanim : (SafeAnim.animate env props).1 = some a := by
        simp [SafeAnim.animate, hg, hw, hcw]
      have h2 : (SafeAnim.animate env props).2 = [SafeAnim.Backend.webAnimation] := by
        simp [SafeAnim.animate, hg, hw, hcw]
      obtain ⟨n, rfl⟩ := createWebAnimation_shape env props a hcw
      refine ⟨?_, ?_, ?_⟩
      · rw [h2] <;> decide
      · simp [h2]
      · intro g hcss
        rw [hanim] at hcss
        simp at hcss

/-- Claim C1, witness: with GSAP unavailable and the Web Animation API
available on a concrete environment, the GSAP constructor is not invoked and
the Web Animation constructor comes first. -/
theorem c1_backend_priority_witness :
    SafeAnim.Backend.gsap ∉ (SafeAnim.animate envNoGsap propsFromSample).2 ∧
    (SafeAnim.animate envNoGsap propsFromSample).2.head?
      = some SafeAnim.Backend.webAnimation :=
  ⟨(c1_backend_priority.2 envNoGsap propsFromSample rfl rfl).1,
   (c1_backend_priority.2 envNoGsap propsFromSample rfl rfl).2.1⟩

/-- Claim C3, counterexample: in an environment where every backend
constructor fails (both engines throw and the CSS fallback style mutations
throw), animate invokes all three constructors in priority order and then
returns null — there is no synchronous jump-to-final-state path, refuting
the claim that the resolver never returns null. -/
theorem c3_all_fail_counterexample :
    (SafeAnim.animate envAllFail propsFromSample).1 = none ∧
    (SafeAnim.animate envAllFail propsFromSample).2
      = [SafeAnim.Backend.gsap, SafeAnim.Backend.webAnimation,
         SafeAnim.Backend.cssFallback] := by
  decide

/-- Claim C3, amended: a backend constructor that fails is caught — never
propagated — and the next-lower-priority backend is tried: after a failed
GSAP construction the Web Animation constructor is invoked when available,
after a failed Web Animation construction the CSS constructor is invoked,
and when every constructor fails animate returns null (it does not raise,
but neither does it fall back to a jump-to-final-state handle). -/
theorem c3_fallback_retry :
    (∀ (env : SafeAnim.SafeAnimEnv) (props : SafeAnim.AnimateProps),
        env.isGsapAvailable = true →
        SafeAnim.createGSAPAnimation env props = none →
        env.isWebAnimationAvailable = true →
        SafeAnim.Backend.webAnimation ∈ (SafeAnim.animate env props).2) ∧
    (∀ (env : SafeAnim.SafeAnimEnv) (props : SafeAnim.AnimateProps),
        env.isWebAnimationAvailable = true →
        SafeAnim.createGSAPAnimation env props = none →
        SafeAnim.createWebAnimation env props = none →
        SafeAnim.Backend.cssFallback ∈ (SafeAnim.animate env props).2) ∧
    (∀ (env : SafeAnim.SafeAnimEnv) (props : SafeAnim.AnimateProps),
        SafeAnim.createGSAPAnimation env props = none →
        SafeAnim.createWebAnimation env props = none →
        SafeAnim.createCSSAnimation env props = none →
        (SafeAnim.animate env props).1 = none) := by
  refine ⟨?_, ?_, ?_⟩
  · intro env props hg hG hw
    rcases hcw : SafeAnim.createWebAnimation env props with _ | a
    · have h2 : (SafeAnim.animate env props).2
          = [SafeAnim.Backend.gsap, SafeAnim.Backend.webAnimation,
             SafeAnim.Backend.cssFallback] := by
        simp [SafeAnim.animate, hg, hG, hw, hcw]
      rw [h2] <;> decide
    · have h2 : (SafeAnim.animate env props).2
          = [SafeAnim.Backend.gsap, SafeAnim.Backend.webAnimation] := by
        simp [SafeAnim.animate, hg, hG, hw, hcw]
      rw [h2] <;> decide
  · intro env props hw hG hW
    cases hg : env.isGsapAvailable
    · have h2 : (SafeAnim.animate env props).2
          = [SafeAnim.Backend.webAnimation, SafeAnim.Backend.cssFallback] := by
        simp [SafeAnim.animate, hg, hw, hW]
      rw [h2] <;> decide
    · have h2 : (SafeAnim.animate env props).2
          = [SafeAnim.Backend.gsap, SafeAnim.Backend.webAnimation,
             SafeAnim.Backend.cssFallback] := by
        simp [SafeAnim.animate, hg, hG, hw, hW]
      rw [h2] <;> decide
  · intro env props hG hW hC
    cases hg : env.isGsapAvailable <;> cases hw : env.isWebAnimationAvailable
    · have h1 : (SafeAnim.animate env props).1 = SafeAnim.createCSSAnimation env props := by
        simp [SafeAnim.animate, hg, hw]
      rw [h1, hC]
    · have h1 : (SafeAnim.animate env props).1 = SafeAnim.createCSSAnimation env props := by
        simp [SafeAnim.animate, hg, hw, hW]
      rw [h1, hC]
    · have h1 : (SafeAnim.animate env props).1 = SafeAnim.createCSSAnimation env props := by
        simp [SafeAnim.animate, hg, hw, hG]
      rw [h1, hC]
    · have h1 : (SafeAnim.animate env props).1 = SafeAnim.createCSSAnimation env props := by
        simp [SafeAnim.animate, hg, hw, hG, hW]
      rw [h1, hC]

/-- Claim C3, witness: in the all-failing environment the failed GSAP
construction is followed by an invocation of the Web Animation backend. -/
theorem c3_fallback_retry_witness :
    SafeAnim.Backend.webAnimation ∈ (SafeAnim.animate envAllFail propsFromSample).2 :=
  c3_fallback_retry.1 envAllFail propsFromSample rfl (by decide) rfl

/-- Once the pending completion timer of a createCSSAnimation handle is gone,
no later sequence of events changes the completion-callback count. -/
theorem cssTimerRun_pending_none (h : SafeAnim.CSSHandle)
    (evts : List SafeAnim.CSSTimerEvent) (w : SafeAnim.CSSTimerWorld)
    (hp : w.pendingMs = none) :
    (SafeAnim.cssTimerRun h evts w).completeCalls = w.completeCalls := by
  induction evts generalizing w with
  | nil => rfl
  | cons e es ih =>
    cases e
    case elapseMs =>
      show (SafeAnim.cssTimerRun h es (SafeAnim.cssTimerStep h w)).completeCalls = _
      have hstep : SafeAnim.cssTimerStep h w = w := by
        simp [SafeAnim.cssTimerStep, hp]
      rw [hstep]
      exact ih w hp
    case kill =>
      show (SafeAnim.cssTimerRun h es (SafeAnim.cssTimerKill w)).completeCalls = _
      rw [ih (SafeAnim.cssTimerKill w) rfl]
      rfl

/-- The completion callbacks of a createCSSAnimation handle run at most once:
any run adds at most one firing worth of callback invocations, and only while
the timer is still pending. -/
theorem cssTimerRun_le (h : SafeAnim.CSSHandle) (evts : List SafeAnim.CSSTimerEvent)
    (w : SafeAnim.CSSTimerWorld) :
    (SafeAnim.cssTimerRun h evts w).completeCalls
      ≤ w.completeCalls
        + (if w.pendingMs.isSome then SafeAnim.cssCallbackCount h else 0) := by
  induction evts generalizing w with
  | nil => exact Nat.le_add_right _ _
  | cons e es ih =>
    cases e
    case kill =>
      show (SafeAnim.cssTimerRun h es (SafeAnim.cssTimerKill w)).completeCalls ≤ _
      rw [cssTimerRun_pending_none h es (SafeAnim.cssTimerKill w) rfl]
      exact Nat.le_add_right _ _
    case elapseMs =>
      show (SafeAnim.cssTimerRun h es (SafeAnim.cssTimerStep h w)).completeCalls ≤ _
      rcases hp : w.pendingMs with _ | t
      · have hstep : SafeAnim.cssTimerStep h w = w := by
          simp [SafeAnim.cssTimerStep, hp]
        rw [hstep]
        have hle := ih w
        rw [hp] at hle
        simpa using hle
      · by_cases ht : t ≤ 1
        · have hstep : SafeAnim.cssTimerStep h w
              = ⟨none, w.completeCalls + SafeAnim.cssCallbackCount h,
                 w.transitionStyle⟩ := by
            simp [SafeAnim.cssTimerStep, hp, ht]
          rw [hstep,
            cssTimerRun_pending_none h es
              ⟨none, w.completeCalls + SafeAnim.cssCallbackCount h,
               w.transitionStyle⟩ rfl]
          simp
        · have hstep : SafeAnim.cssTimerStep h w
              = ⟨some (t - 1), w.completeCalls, w.transitionStyle⟩ := by
            simp [SafeAnim.cssTimerStep, hp, ht]
          rw [hstep]
          have hle := ih ⟨some (t - 1), w.completeCalls, w.transitionStyle⟩
          simpa using hle

/-- Once the inline animation style of an applyCssAnimation element has been
cleared, later events never change the completion-callback count — as long
as the element is not re-animated: while the style stays cleared no
animationend is delivered. A re-animation event voids this, because the
stale listener is still registered. -/
theorem cssAnimRun_style_cleared (es : List Fallbacks.CssAnimEvent)
    (w : Fallbacks.CssEventWorld) (hs : w.el.animationStyle = "")
    (hre : es.any Fallbacks.isReanimate = false) :
    (Fallbacks.cssAnimRun es w).completeCalls = w.completeCalls := by
  induction es generalizing w with
  | nil => rfl
  | cons e es ih =>
    rw [List.any_cons, Bool.or_eq_false_iff] at hre
    cases e
    case animationEnd =>
      show (Fallbacks.cssAnimRun es
        (Fallbacks.cssAnimStep w Fallbacks.CssAnimEvent.animationEnd)).completeCalls = _
      have hstep : Fallbacks.cssAnimStep w Fallbacks.CssAnimEvent.animationEnd = w := by
        simp [Fallbacks.cssAnimStep, hs]
      rw [hstep]
      exact ih w hs hre.2
    case kill =>
      show (Fallbacks.cssAnimRun es
        (Fallbacks.cssAnimStep w Fallbacks.CssAnimEvent.kill)).completeCalls = _
      have hstep : Fallbacks.cssAnimStep w Fallbacks.CssAnimEvent.kill
          = ⟨⟨"", w.el.listeners⟩, w.completeCalls⟩ := rfl
      rw [hstep, ih ⟨⟨"", w.el.listeners⟩, w.completeCalls⟩ rfl hre.2]
    case reanimate s =>
      simp [Fallbacks.isReanimate] at hre

/-- Claim C4, counterexample: the kill of the applyCssAnimation handle only
clears element.style.animation and never removes the registered animationend
listener. Concretely: applyCssAnimation animates an element with an
onComplete (one listener registered), the handle is killed before any
natural completion (the callback count is zero), the same element is then
re-animated, and when that later animation ends the stale listener fires and
runs the killed handle onComplete — the completion callback fires even
though kill was called before natural completion, refuting the claim for the
applyCssAnimation handle. -/
theorem c4_stale_listener_counterexample :
    elementAfterApply.listeners = 1 ∧
    elementAfterApply.animationStyle ≠ "" ∧
    (Fallbacks.cssAnimRun
        [Fallbacks.CssAnimEvent.kill,
         Fallbacks.CssAnimEvent.reanimate "fadeIn 1s linear 0s 1 normal forwards",
         Fallbacks.CssAnimEvent.animationEnd]
        ⟨elementAfterApply, 0⟩).completeCalls = 1 := by
  decide

/-- Claim C4, amended: for the timer-based handle of createCSSAnimation the
claim holds in full — kill at any point freezes the completion-callback
count (killing before natural completion, count still zero, prevents the
callbacks from ever firing; killing after natural completion is a no-op that
cannot double-fire), and the callbacks fire at most once in total. For the
applyCssAnimation handle, kill cancels the running animation, so the
callback count stays frozen as long as the element is not animated again;
but kill does not remove the registered animationend listener, so
re-animating the same element fires the stale listener and runs the killed
handle onComplete (see the counterexample). -/
theorem c4_css_cancel (env : SafeAnim.SafeAnimEnv) (props : SafeAnim.AnimateProps)
    (hdl : SafeAnim.CSSHandle) (tr : String)
    (hc : SafeAnim.createCSSAnimation env props
      = some (SafeAnim.AnimHandle.cssFallback hdl)) :
    (∀ es1 es2 : List SafeAnim.CSSTimerEvent,
        (SafeAnim.cssTimerRun hdl es2 (SafeAnim.cssTimerKill
            (SafeAnim.cssTimerRun hdl es1 (SafeAnim.cssInitWorld hdl tr)))).completeCalls
          = (SafeAnim.cssTimerRun hdl es1 (SafeAnim.cssInitWorld hdl tr)).completeCalls) ∧
    (∀ es : List SafeAnim.CSSTimerEvent,
        (SafeAnim.cssTimerRun hdl es (SafeAnim.cssInitWorld hdl tr)).completeCalls
          ≤ SafeAnim.cssCallbackCount hdl) ∧
    (∀ (w : Fallbacks.CssEventWorld) (es : List Fallbacks.CssAnimEvent),
        es.any Fallbacks.isReanimate = false →
        (Fallbacks.cssAnimRun es (Fallbacks.killWorld w)).completeCalls
          = w.completeCalls) ∧
    (∀ w : Fallbacks.CssEventWorld,
        (Fallbacks.killWorld w).el.listeners = w.el.listeners) := by
  refine ⟨?_, ?_, ?_, ?_⟩
  · intro es1 es2
    rw [cssTimerRun_pending_none hdl es2 _ rfl]
    rfl
  · intro es
    have hle := cssTimerRun_le hdl es (SafeAnim.cssInitWorld hdl tr)
    simpa [SafeAnim.cssInitWorld] using hle
  · intro w es hre
    exact cssAnimRun_style_cleared es (Fallbacks.killWorld w) rfl hre
  · intro w
    rfl

/-- Claim C4, witness: for the concrete handle built by createCSSAnimation in
the CSS-only environment, killing right away freezes the callback count. -/
theorem c4_css_cancel_witness :
    (SafeAnim.cssTimerRun cssHandleSample []
        (SafeAnim.cssTimerKill (SafeAnim.cssTimerRun cssHandleSample []
          (SafeAnim.cssInitWorld cssHandleSample "all 1s ease-out 0s")))).completeCalls
      = (SafeAnim.cssTimerRun cssHandleSample []
          (SafeAnim.cssInitWorld cssHandleSample "all 1s ease-out 0s")).completeCalls :=
  (c4_css_cancel envCssOnly propsFromSample cssHandleSample "all 1s ease-out 0s"
    (by norm_num [SafeAnim.createCSSAnimation, envCssOnly, elementOk, propsFromSample,
      cssHandleSample, fromVarsSample])).1 [] []

/-- Claim C7, counterexample: the from-state transform build of the CSS
fallback backend appends pieces in property-bag order, not in a fixed
translate-rotate-scale order — for the bag listing scale before x it emits
scale(2) translateX(10px), for the same bag in the other order it emits
translateX(10px) scale(2), so the composed transform depends on the order of
the input bag and scale can precede translate, refuting the claim for the
CSS backend. -/
theorem c7_css_order_counterexample :
    SafeAnim.cssFromTransform bagScaleFirst "" = "scale(2) translateX(10px)" ∧
    SafeAnim.cssFromTransform bagXFirst "" = "translateX(10px) scale(2)" ∧
    SafeAnim.cssFromTransform bagScaleFirst ""
      ≠ SafeAnim.cssFromTransform bagXFirst "" := by
  decide

/-- Claim C7, amended: the Web Animation backend composes the transform in
the fixed source order translateX, translateY, rotate, scale, scaleX, scaleY
— i.e. translate parts, then the rotate part, then the scale parts —
independent of the order of the input bag; the CSS fallback from-state
build, by contrast, follows the bag order (see the counterexample). -/
theorem c7_webanim_fixed_order :
    (∀ bag : List (String × ℚ),
        SafeAnim.webAnimationTransform bag = SafeAnim.specOrderedTransform bag) ∧
    (∀ bag1 bag2 : List (String × ℚ),
        bag1.lookup "x" = bag2.lookup "x" →
        bag1.lookup "y" = bag2.lookup "y" →
        bag1.lookup "rotation" = bag2.lookup "rotation" →
        bag1.lookup "scale" = bag2.lookup "scale" →
        bag1.lookup "scaleX" = bag2.lookup "scaleX" →
        bag1.lookup "scaleY" = bag2.lookup "scaleY" →
        SafeAnim.webAnimationTransform bag1 = SafeAnim.webAnimationTransform bag2) := by
  constructor
  · intro bag
    unfold SafeAnim.webAnimationTransform SafeAnim.specOrderedTransform
      SafeAnim.specTranslatePart SafeAnim.specRotatePart SafeAnim.specScalePart
    rcases bag.lookup "x" with _ | vx <;>
      rcases bag.lookup "y" with _ | vy <;>
        rcases bag.lookup "rotation" with _ | vr <;>
          rcases bag.lookup "scale" with _ | vs <;>
            rcases bag.lookup "scaleX" with _ | vsx <;>
              rcases bag.lookup "scaleY" with _ | vsy <;>
                simp only [String.append_assoc, String.append_empty,
                  String.empty_append]
  · intro bag1 bag2 hx hy hr hs hsx hsy
    unfold SafeAnim.webAnimationTransform
    rw [hx, hy, hr, hs, hsx, hsy]

/-- Claim C7, witness: the two concrete bags have equal lookups, so the Web
Animation transform is the same for both orders. -/
theorem c7_webanim_fixed_order_witness :
    SafeAnim.webAnimationTransform bagScaleFirst
      = SafeAnim.webAnimationTransform bagXFirst :=
  c7_webanim_fixed_order.2 bagScaleFirst bagXFirst (by decide) (by decide)
    (by decide) (by decide) (by decide) (by decide)

/-- A branch of an if-then-else over strings is in a list when both of its
arms are. -/
theorem ite_mem {c : Prop} [Decidable c] {a b : String} {l : List String}
    (ha : a ∈ l) (hb : b ∈ l) : (if c then a else b) ∈ l := by
  split
  · exact ha
  · exact hb

/-- Claim C9: the animation-name selection is total and always yields the
name of a keyframe rule present in the injected style block — every result
is one of the generated rule names — the empty bag gets the default fadeIn,
and any bag matching none of the ten patterns gets the default fadeIn. -/
theorem c9_animation_name_total :
    (∀ p : Fallbacks.CssProps,
        Fallbacks.getAnimationName p ∈ Fallbacks.generateCSSKeyframesNames) ∧
    Fallbacks.getAnimationName Fallbacks.emptyCssProps = "fadeIn" ∧
    (∀ p : Fallbacks.CssProps, Fallbacks.matchesAnyPattern p = false →
        Fallbacks.getAnimationName p = "fadeIn") := by
  refine ⟨?_, rfl, ?_⟩
  · intro p
    unfold Fallbacks.getAnimationName
    exact ite_mem (by decide) (ite_mem (by decide) (ite_mem (by decide)
      (ite_mem (by decide) (ite_mem (by decide) (ite_mem (by decide)
      (ite_mem (by decide) (ite_mem (by decide) (ite_mem (by decide)
      (ite_mem (by decide) (by decide))))))))))
  · intro p h
    simp only [Fallbacks.matchesAnyPattern, Bool.or_eq_false_iff] at h
    obtain ⟨⟨⟨⟨⟨⟨⟨⟨⟨h1, h2⟩, h3⟩, h4⟩, h5⟩, h6⟩, h7⟩, h8⟩, h9⟩, h10⟩ := h
    unfold Fallbacks.getAnimationName
    simp only [h1, h2, h3, h4, h5, h6, h7, h8, h9, h10, Bool.false_eq_true, if_false]

/-- Claim C9, witness: the empty bag matches no pattern and gets the default
fadeIn. -/
theorem c9_animation_name_total_witness :
    Fallbacks.getAnimationName Fallbacks.emptyCssProps = "fadeIn" :=
  c9_animation_name_total.2.2 Fallbacks.emptyCssProps (by decide)
